import Mathlib

set_option linter.unusedVariables false

/-!
Shallow embedding of the financial calculation engines of the Financial-Tools
repository (src/src/lib/mortgage-calculations.ts, src/src/lib/ptc-calculations.ts,
and the social-security calculation module), with theorems checking the
natural-language specification against the code.

Numbers are modelled as exact rationals (ℚ) where the source only uses field
arithmetic, and as reals (ℝ) where the source uses transcendental functions
(Math.log, fractional Math.pow).  JavaScript `null` sentinels become `Option`.
-/

namespace FinTools

/-- Constant MINIMUM_BALANCE from mortgage-calculations.ts. -/
def MINIMUM_BALANCE : ℚ := 1/100

/-- Constant MAX_ITERATIONS from mortgage-calculations.ts. -/
def MAX_ITERATIONS : ℕ := 10000

/-- Constant PMI_LTV_THRESHOLD from mortgage-calculations.ts. -/
def PMI_LTV_THRESHOLD : ℚ := 78

/-- Constant BIWEEKLY_PERIODS_PER_YEAR from mortgage-calculations.ts. -/
def BIWEEKLY_PERIODS_PER_YEAR : ℚ := 26

/-- The numeric and boolean fields of MortgageInputs that the schedule
generators read (mortgage-calculations.ts lines 26-45). -/
structure MortgageInputs where
  homePrice : ℚ
  downPayment : ℚ
  loanTerm : ℚ
  interestRate : ℚ
  propertyTax : ℚ
  homeInsurance : ℚ
  pmiRate : ℚ
  pmiAmount : ℚ
  extraMonthlyPrincipal : ℚ
  doubleMonthlyPrincipal : Bool
  extraAnnualPayment : ℚ
  biWeeklyPayments : Bool
  isExistingLoan : Bool
  currentBalance : ℚ
  existingInterestRate : ℚ
  existingMonthlyPayment : ℚ
deriving DecidableEq

/-- ScheduleEntry from mortgage-calculations.ts lines 47-57. -/
structure ScheduleEntry where
  month : ℕ
  payment : ℚ
  principal : ℚ
  interest : ℚ
  extraPrincipal : ℚ
  balance : ℚ
  totalInterest : ℚ
  pmi : ℚ
  escrow : ℚ
deriving DecidableEq

/-- calculateMonthlyPI (lines 125-135): level payment, with the zero-rate
case handled explicitly.  `totalPayments` is the (integer) period count. -/
def calculateMonthlyPI (loanAmount monthlyRate : ℚ) (totalPayments : ℕ) : ℚ :=
  if monthlyRate = 0 then
    loanAmount / totalPayments
  else
    let power := (1 + monthlyRate) ^ totalPayments
    (loanAmount * (monthlyRate * power)) / (power - 1)

/-- calculateMonthlyPMI (lines 142-152). -/
def calculateMonthlyPMI (inputs : MortgageInputs) (loanAmount ltv : ℚ) : ℚ :=
  if inputs.isExistingLoan then inputs.pmiAmount
  else if ltv > PMI_LTV_THRESHOLD then (loanAmount * (inputs.pmiRate / 100)) / 12
  else 0

/-- The body of the monthly `for` loop of generateAmortizationSchedule
(lines 226-265).  `fuel` counts the months still allowed by the loop bound
(`maxMonths - month + 1`); the JavaScript `push` loop is rendered as direct
recursion producing the same list in the same order. -/
def amortLoop (monthlyRate monthlyPI monthlyEscrow monthlyPMI : ℚ)
    (inputs : MortgageInputs) (extraMonthly : ℚ) (doubleMonthly : Bool)
    (extraAnnual : ℚ) :
    ℕ → ℕ → ℚ → ℚ → List ScheduleEntry
  | 0, _, _, _ => []
  | fuel + 1, month, remainingBalance, totalInterestPaid =>
    if remainingBalance ≤ MINIMUM_BALANCE then []
    else
      let interestPayment := remainingBalance * monthlyRate
      let principalPayment := monthlyPI - interestPayment
      if principalPayment ≤ 0 then []
      else
        let extraPrincipal := extraMonthly
          + (if doubleMonthly then principalPayment else 0)
          + (if month % 12 = 0 then extraAnnual else 0)
        let totalPrincipal := min (principalPayment + extraPrincipal) remainingBalance
        let newBalance := remainingBalance - totalPrincipal
        let newTotalInterest := totalInterestPaid + interestPayment
        let currentLTV := if inputs.isExistingLoan then 0
          else (newBalance / inputs.homePrice) * 100
        let pmiPayment := if inputs.isExistingLoan then 0
          else if currentLTV > PMI_LTV_THRESHOLD then monthlyPMI else 0
        let entry : ScheduleEntry :=
          ⟨month, monthlyPI + extraPrincipal, totalPrincipal, interestPayment,
            extraPrincipal, newBalance, newTotalInterest, pmiPayment, monthlyEscrow⟩
        entry :: amortLoop monthlyRate monthlyPI monthlyEscrow monthlyPMI inputs
          extraMonthly doubleMonthly extraAnnual fuel (month + 1)
          newBalance newTotalInterest

/-- The body of the bi-weekly `while` loop of generateBiWeeklySchedule
(lines 289-320); an entry is pushed only on even payment numbers.  The
JavaScript `push` loop is rendered as direct recursion producing the same
list in the same order. -/
def biWeeklyLoop (biWeeklyRate biWeeklyPayment monthlyEscrow monthlyPMI : ℚ)
    (inputs : MortgageInputs) :
    ℕ → ℕ → ℚ → ℚ → List ScheduleEntry
  | 0, _, _, _ => []
  | fuel + 1, paymentNumber, remainingBalance, totalInterestPaid =>
    if remainingBalance ≤ MINIMUM_BALANCE then []
    else
      let interestPayment := remainingBalance * biWeeklyRate
      let principalPayment0 := biWeeklyPayment - interestPayment
      if principalPayment0 ≤ 0 then []
      else
        let principalPayment := min principalPayment0 remainingBalance
        let newBalance := remainingBalance - principalPayment
        let newTotalInterest := totalInterestPaid + interestPayment
        let rest := biWeeklyLoop biWeeklyRate biWeeklyPayment monthlyEscrow
          monthlyPMI inputs fuel (paymentNumber + 1) newBalance newTotalInterest
        if paymentNumber % 2 = 0 then
          let currentLTV := if inputs.isExistingLoan then 0
            else (newBalance / inputs.homePrice) * 100
          let pmiPayment := if inputs.isExistingLoan then 0
            else if currentLTV > PMI_LTV_THRESHOLD then monthlyPMI else 0
          let entry : ScheduleEntry :=
            ⟨(paymentNumber + 1) / 2, biWeeklyPayment * 2, principalPayment * 2,
              interestPayment * 2, 0, newBalance, newTotalInterest,
              pmiPayment, monthlyEscrow⟩
          entry :: rest
        else rest

/-- generateBiWeeklySchedule (lines 270-323). -/
def generateBiWeeklySchedule (loanAmount monthlyRate monthlyPI : ℚ)
    (totalPayments : ℕ) (monthlyEscrow monthlyPMI : ℚ)
    (inputs : MortgageInputs) : List ScheduleEntry :=
  let biWeeklyPayment := monthlyPI / 2
  let rate := if inputs.isExistingLoan then inputs.existingInterestRate
    else inputs.interestRate
  let biWeeklyRate := rate / 100 / BIWEEKLY_PERIODS_PER_YEAR
  let maxPayments := min (totalPayments * 2) MAX_ITERATIONS
  biWeeklyLoop biWeeklyRate biWeeklyPayment monthlyEscrow monthlyPMI inputs
    maxPayments 1 loanAmount 0

/-- generateAmortizationSchedule (lines 195-268). -/
def generateAmortizationSchedule (loanAmount monthlyRate monthlyPI : ℚ)
    (totalPayments : ℕ) (monthlyEscrow monthlyPMI : ℚ)
    (inputs : MortgageInputs) (extraMonthly : ℚ) (doubleMonthly : Bool)
    (extraAnnual : ℚ) (biWeekly : Bool) : List ScheduleEntry :=
  if biWeekly then
    generateBiWeeklySchedule loanAmount monthlyRate monthlyPI totalPayments
      monthlyEscrow monthlyPMI inputs
  else
    amortLoop monthlyRate monthlyPI monthlyEscrow monthlyPMI inputs
      extraMonthly doubleMonthly extraAnnual
      (min totalPayments MAX_ITERATIONS) 1 loanAmount 0

/-- An all-zero MortgageInputs record used to build concrete test inputs. -/
def zeroInputs : MortgageInputs :=
  ⟨0, 0, 0, 0, 0, 0, 0, 0, 0, false, 0, false, false, 0, 0, 0⟩

/-- The balance/interest chain invariant of an amortization schedule relative
to a starting balance and starting cumulative interest: each entry's balance
is the previous balance minus that entry's (total) principal, balances stay
non-negative and non-increasing, and cumulative interest is non-decreasing. -/
def BalanceChain : ℚ → ℚ → List ScheduleEntry → Prop
  | _, _, [] => True
  | bal, ti, e :: rest =>
      e.balance = bal - e.principal ∧ 0 ≤ e.balance ∧ e.balance ≤ bal ∧
      ti ≤ e.totalInterest ∧ BalanceChain e.balance e.totalInterest rest

/-- The balance recurrence exactly as the specification states it, over the
emitted fields: each entry's balance equals the previous balance minus the
sum of the entry's principal and extraPrincipal fields, clamped at zero. -/
def SpecClaimedChain : ℚ → List ScheduleEntry → Prop
  | _, [] => True
  | bal, e :: rest =>
      e.balance = max (bal - (e.principal + e.extraPrincipal)) 0 ∧
      SpecClaimedChain e.balance rest

theorem amortLoop_balanceChain (mr mpi esc pmi : ℚ) (inp : MortgageInputs)
    (em : ℚ) (dm : Bool) (ea : ℚ) (hmr : 0 ≤ mr) (hem : 0 ≤ em) (hea : 0 ≤ ea) :
    ∀ fuel month bal ti,
      BalanceChain bal ti (amortLoop mr mpi esc pmi inp em dm ea fuel month bal ti) := by
  intro fuel
  induction fuel with
  | zero => intro month bal ti; simp [amortLoop, BalanceChain]
  | succ n ih =>
    intro month bal ti
    simp only [amortLoop]
    split
    · simp [BalanceChain]
    · rename_i hbal
      split
      · simp [BalanceChain]
      · rename_i hpp
        simp only [BalanceChain]
        push_neg at hbal hpp
        have hbal0 : (0:ℚ) < bal := lt_trans (by norm_num [MINIMUM_BALANCE]) hbal
        have hextra : 0 ≤ em + (if dm then mpi - bal * mr else 0)
            + (if month % 12 = 0 then ea else 0) := by
          have h1 : (0:ℚ) ≤ if dm then mpi - bal * mr else 0 := by
            split
            · exact le_of_lt hpp
            · exact le_refl 0
          have h2 : (0:ℚ) ≤ if month % 12 = 0 then ea else 0 := by
            split
            · exact hea
            · exact le_refl 0
          have := add_nonneg (add_nonneg hem h1) h2
          linarith
        refine ⟨by trivial, ?_, ?_, ?_, ?_⟩
        · simp only [sub_nonneg]
          exact min_le_right _ _
        · have h0 : (0:ℚ) ≤ min (mpi - bal * mr
              + (em + (if dm then mpi - bal * mr else 0)
                + (if month % 12 = 0 then ea else 0))) bal :=
            le_min (by linarith) (le_of_lt hbal0)
          linarith
        · have : (0:ℚ) ≤ bal * mr := mul_nonneg (le_of_lt hbal0) hmr
          linarith
        · exact ih (month + 1) _ _

/-- C1 (amended): in monthly mode, each emitted entry's balance equals the
previous balance minus that entry's `principal` field (the `principal` field
already contains the extra principal, so the extra is not subtracted a second
time); balances stay non-negative (the principal applied is clamped at the
remaining balance) and the balance sequence is monotonically non-increasing
while the cumulative `totalInterest` sequence is monotonically non-decreasing,
with the loan amount as the starting balance. -/
theorem C1_monthly_balance_invariants (loanAmount mr mpi : ℚ) (n : ℕ)
    (esc pmi : ℚ) (inp : MortgageInputs) (em : ℚ) (dm : Bool) (ea : ℚ)
    (hmr : 0 ≤ mr) (hem : 0 ≤ em) (hea : 0 ≤ ea) :
    BalanceChain loanAmount 0
      (generateAmortizationSchedule loanAmount mr mpi n esc pmi inp em dm ea false) := by
  simp only [generateAmortizationSchedule, Bool.false_eq_true, if_false]
  exact amortLoop_balanceChain mr mpi esc pmi inp em dm ea hmr hem hea _ 1 loanAmount 0

/-- Witness for C1 at a concrete schedule. -/
theorem C1_monthly_balance_invariants_witness :
    ((0:ℚ) ≤ 0) ∧
      BalanceChain 1000 0
        (generateAmortizationSchedule 1000 0 100 2 0 0 zeroInputs 0 false 0 false) :=
  ⟨le_refl 0,
    C1_monthly_balance_invariants 1000 0 100 2 0 0 zeroInputs 0 false 0
      (le_refl 0) (le_refl 0) (le_refl 0)⟩

/-- C1 counterexample: with a 50-per-month extra payment on a 1000 loan at
rate 0 with payment 100, the first entry has principal 150 (already including
the extra 50) and balance 850, while the claimed recurrence
`balance = prev - (principal + extra)` would require balance 800. -/
theorem C1_counterexample :
    ¬ SpecClaimedChain 1000
      (generateAmortizationSchedule 1000 0 100 2 0 0
        { zeroInputs with homePrice := 2000 } 50 false 0 false) := by
  have h : generateAmortizationSchedule 1000 0 100 2 0 0
      { zeroInputs with homePrice := 2000 } 50 false 0 false =
      [⟨1, 150, 150, 0, 50, 850, 0, 0, 0⟩, ⟨2, 150, 150, 0, 50, 700, 0, 0, 0⟩] := by
    simp [generateAmortizationSchedule, amortLoop, MAX_ITERATIONS, MINIMUM_BALANCE,
      PMI_LTV_THRESHOLD, zeroInputs]
    norm_num
  rw [h]
  simp only [SpecClaimedChain]
  intro hc
  have h1 := hc.1
  rw [max_def] at h1
  norm_num at h1

/-- C2: whenever the loop guards are still live (balance above the minimum
cutoff) but the scheduled payment does not exceed the period's interest, the
amortization loop emits no further entries, so the engine returns exactly the
schedule accumulated so far.  (The embedding is a total function, mirroring
that the source path throws no exception and only issues a console warning.) -/
theorem C2_stops_when_payment_too_low (mr mpi esc pmi : ℚ) (inp : MortgageInputs)
    (em : ℚ) (dm : Bool) (ea : ℚ) (fuel month : ℕ) (bal ti : ℚ)
    (hbal : MINIMUM_BALANCE < bal) (hlow : mpi - bal * mr ≤ 0) :
    amortLoop mr mpi esc pmi inp em dm ea (fuel + 1) month bal ti = [] := by
  simp only [amortLoop]
  rw [if_neg (not_le.mpr hbal), if_pos hlow]

/-- Witness for C2: a payment of 10 against interest 1000 stops the loop at
once. -/
theorem C2_stops_when_payment_too_low_witness :
    MINIMUM_BALANCE < (1000:ℚ) ∧ (10:ℚ) - 1000 * 1 ≤ 0 ∧
      amortLoop 1 10 0 0 zeroInputs 0 false 0 5 1 1000 0 = [] :=
  ⟨by norm_num [MINIMUM_BALANCE], by norm_num,
    C2_stops_when_payment_too_low 1 10 0 0 zeroInputs 0 false 0 4 1 1000 0
      (by norm_num [MINIMUM_BALANCE]) (by norm_num)⟩

/-- Number of periods a zero-rate monthly schedule emits: the loop stops at
the first k with `bal - k*pay ≤ MINIMUM_BALANCE`, i.e. ⌈(bal - 0.01)/pay⌉. -/
def zeroRatePayoffPeriods (bal pay : ℚ) : ℕ :=
  if bal ≤ MINIMUM_BALANCE then 0 else (⌈(bal - MINIMUM_BALANCE) / pay⌉).toNat

theorem zeroRatePayoffPeriods_step (bal pay : ℚ)
    (hbal : MINIMUM_BALANCE < bal) (hpay : 0 < pay) :
    zeroRatePayoffPeriods bal pay
      = zeroRatePayoffPeriods (bal - min pay bal) pay + 1 := by
  have hbal0 : (0:ℚ) < bal := lt_trans (by norm_num [MINIMUM_BALANCE]) hbal
  rw [zeroRatePayoffPeriods, if_neg (not_le.mpr hbal), zeroRatePayoffPeriods]
  by_cases hc : bal - min pay bal ≤ MINIMUM_BALANCE
  · rw [if_pos hc]
    have hle : bal - MINIMUM_BALANCE ≤ pay := by
      have h1 : bal - MINIMUM_BALANCE ≤ min pay bal := by linarith
      exact le_trans h1 (min_le_left _ _)
    have hpos : 0 < (bal - MINIMUM_BALANCE) / pay := div_pos (by linarith) hpay
    have hone : (bal - MINIMUM_BALANCE) / pay ≤ 1 := (div_le_one hpay).mpr hle
    have : ⌈(bal - MINIMUM_BALANCE) / pay⌉ = 1 := by
      rw [Int.ceil_eq_iff]
      constructor
      · push_cast; linarith
      · push_cast; linarith
    rw [this]
    rfl
  · push_neg at hc
    rw [if_neg (not_le.mpr hc)]
    have hple : pay ≤ bal := by
      by_contra h
      push_neg at h
      rw [min_eq_right (le_of_lt h)] at hc
      simp only [sub_self] at hc
      have : (0:ℚ) < MINIMUM_BALANCE := by norm_num [MINIMUM_BALANCE]
      linarith
    rw [min_eq_left hple] at hc ⊢
    have hsplit : (bal - MINIMUM_BALANCE) / pay = (bal - pay - MINIMUM_BALANCE) / pay + 1 := by
      field_simp
      ring
    rw [hsplit, Int.ceil_add_one]
    have hpos : 0 < ⌈(bal - pay - MINIMUM_BALANCE) / pay⌉ :=
      Int.ceil_pos.mpr (div_pos (by linarith) hpay)
    omega

/-- With a zero monthly rate and no extra-payment strategy, the monthly loop
emits exactly `min fuel (zeroRatePayoffPeriods bal pay)` entries. -/
theorem amortLoop_zeroRate_length (mpi esc pmi : ℚ) (inp : MortgageInputs)
    (hpay : 0 < mpi) :
    ∀ fuel month bal ti,
      (amortLoop 0 mpi esc pmi inp 0 false 0 fuel month bal ti).length
        = min fuel (zeroRatePayoffPeriods bal mpi) := by
  intro fuel
  induction fuel with
  | zero => intro month bal ti; simp [amortLoop]
  | succ n ih =>
    intro month bal ti
    simp only [amortLoop, mul_zero, sub_zero, add_zero, zero_add, ite_self,
      Bool.false_eq_true, if_false]
    split
    · rename_i h
      simp [zeroRatePayoffPeriods, if_pos h]
    · rename_i hbal
      split
      · rename_i h; exact absurd hpay (not_lt.mpr h)
      · rename_i hpp
        push_neg at hbal
        simp only [List.length_cons, ih (month + 1)]
        rw [zeroRatePayoffPeriods_step bal mpi hbal hpay]
        omega

/-- At a zero monthly rate every emitted entry's interest is exactly zero,
for any extra-payment configuration. -/
theorem amortLoop_zeroRate_interest (mpi esc pmi : ℚ) (inp : MortgageInputs)
    (em : ℚ) (dm : Bool) (ea : ℚ) :
    ∀ fuel month bal ti e,
      e ∈ amortLoop 0 mpi esc pmi inp em dm ea fuel month bal ti →
        e.interest = 0 := by
  intro fuel
  induction fuel with
  | zero => intro month bal ti e he; simp [amortLoop] at he
  | succ n ih =>
    intro month bal ti e he
    simp only [amortLoop] at he
    split at he
    · simp at he
    · split at he
      · simp at he
      · simp only [List.mem_cons] at he
        rcases he with he | he
        · subst he; simp
        · exact ih (month + 1) _ _ e he

/-- C4 (amended): for a zero periodic rate the level payment is
principal/totalPeriods and every emitted entry's interest is exactly 0; the
number of emitted entries is `min (min totalPeriods 10000)
(zeroRatePayoffPeriods principal payment)`, i.e. ⌈(principal − 0.01)/payment⌉
with the 0.01 minimum-balance cutoff and the iteration caps — this equals the
claimed ⌈principal/payment⌉ except when the caps bind or the final residual
balance is positive but at most 0.01. -/
theorem C4_zero_rate (L pay : ℚ) (n : ℕ) (esc pmi : ℚ) (inp : MortgageInputs)
    (hpay : 0 < pay) :
    calculateMonthlyPI L 0 n = L / n ∧
    (∀ e ∈ generateAmortizationSchedule L 0 pay n esc pmi inp 0 false 0 false,
      e.interest = 0) ∧
    (generateAmortizationSchedule L 0 pay n esc pmi inp 0 false 0 false).length
      = min (min n MAX_ITERATIONS) (zeroRatePayoffPeriods L pay) := by
  refine ⟨by simp [calculateMonthlyPI], ?_, ?_⟩
  · intro e he
    simp only [generateAmortizationSchedule, Bool.false_eq_true, if_false] at he
    exact amortLoop_zeroRate_interest pay esc pmi inp 0 false 0 _ 1 L 0 e he
  · simp only [generateAmortizationSchedule, Bool.false_eq_true, if_false]
    exact amortLoop_zeroRate_length pay esc pmi inp hpay _ 1 L 0

/-- Witness for C4: a 10 loan at rate 0 with payment 5 over 2 periods. -/
theorem C4_zero_rate_witness :
    (0:ℚ) < 5 ∧
      (calculateMonthlyPI 10 0 2 = 10 / 2 ∧
        (∀ e ∈ generateAmortizationSchedule 10 0 5 2 0 0 zeroInputs 0 false 0 false,
          e.interest = 0) ∧
        (generateAmortizationSchedule 10 0 5 2 0 0 zeroInputs 0 false 0 false).length
          = min (min 2 MAX_ITERATIONS) (zeroRatePayoffPeriods 10 5)) :=
  ⟨by norm_num, C4_zero_rate 10 5 2 0 0 zeroInputs (by norm_num)⟩

/-- C4 counterexample: a zero-rate loan of 1.005 with payment 0.1 emits 10
entries (the loop stops once the balance reaches 0.005 ≤ 0.01), while the
claimed count ⌈principal/payment⌉ is ⌈10.05⌉ = 11. -/
theorem C4_counterexample :
    (generateAmortizationSchedule (201/200) 0 (1/10) 360 0 0 zeroInputs
        0 false 0 false).length = 10 ∧
    ⌈(201/200 : ℚ) / (1/10)⌉ = 11 ∧ (10 : ℤ) ≠ 11 := by
  refine ⟨?_, ?_, by norm_num⟩
  · simp only [generateAmortizationSchedule, Bool.false_eq_true, if_false]
    rw [amortLoop_zeroRate_length (1/10) 0 0 zeroInputs (by norm_num)
      (min 360 MAX_ITERATIONS) 1 (201/200) 0]
    rw [zeroRatePayoffPeriods, if_neg (by norm_num [MINIMUM_BALANCE])]
    rw [show (201:ℚ)/200 - MINIMUM_BALANCE = 199/200 by norm_num [MINIMUM_BALANCE]]
    rw [show (199:ℚ)/200 / (1/10) = 199/20 by norm_num]
    rw [show ⌈(199:ℚ)/20⌉ = 10 by rw [Int.ceil_eq_iff]; norm_num]
    norm_num [MAX_ITERATIONS]
    omega
  · rw [show (201:ℚ)/200 / (1/10) = 201/20 by norm_num]
    rw [Int.ceil_eq_iff]
    norm_num

/-- One bi-weekly period of the bi-weekly loop: the interest charged, the
principal applied (clamped at the balance) and the resulting balance. -/
def biWeeklyStep (rate pay bal : ℚ) : ℚ × ℚ × ℚ :=
  let interest := bal * rate
  let principal := min (pay - interest) bal
  (interest, principal, bal - principal)

/-- Two consecutive live bi-weekly periods starting at an odd payment number
produce exactly one schedule entry: its payment field is twice the per-period
payment, its principal and interest fields are twice the SECOND period's
principal and interest, and its cumulative totalInterest adds both periods'
interest. -/
theorem biWeeklyLoop_pairs (r pay esc pmi : ℚ) (inp : MortgageInputs)
    (fuel k : ℕ) (bal ti i1 p1 b1 i2 p2 b2 : ℚ)
    (h1 : biWeeklyStep r pay bal = (i1, p1, b1))
    (h2 : biWeeklyStep r pay b1 = (i2, p2, b2))
    (hb : MINIMUM_BALANCE < bal) (hp1 : 0 < pay - bal * r)
    (hb1 : MINIMUM_BALANCE < b1) (hp2 : 0 < pay - b1 * r) :
    biWeeklyLoop r pay esc pmi inp (fuel + 2) (2 * k + 1) bal ti
      = (⟨k + 1, pay * 2, p2 * 2, i2 * 2, 0, b2, ti + i1 + i2,
          if inp.isExistingLoan then 0
          else if (b2 / inp.homePrice) * 100 > PMI_LTV_THRESHOLD then pmi else 0,
          esc⟩ : ScheduleEntry)
        :: biWeeklyLoop r pay esc pmi inp fuel (2 * k + 3) b2 (ti + i1 + i2) := by
  simp only [biWeeklyStep, Prod.mk.injEq] at h1 h2
  obtain ⟨h1i, h1p, h1b⟩ := h1
  obtain ⟨h2i, h2p, h2b⟩ := h2
  have hstep2 : (fuel + 2) = (fuel + 1) + 1 := rfl
  rw [hstep2, biWeeklyLoop]
  rw [if_neg (not_le.mpr hb), if_neg (not_le.mpr hp1)]
  rw [if_neg (show ¬ (2 * k + 1) % 2 = 0 by omega)]
  rw [h1b, h1i, biWeeklyLoop]
  rw [if_neg (not_le.mpr hb1), if_neg (not_le.mpr hp2)]
  rw [if_pos (show (2 * k + 1 + 1) % 2 = 0 by omega)]
  rw [h2i] at h2p
  rw [h2b, h2i, h2p]
  have hmonth : (2 * k + 1 + 1 + 1) / 2 = k + 1 := by omega
  rw [hmonth]
  have hpn : 2 * k + 1 + 1 + 1 = 2 * k + 3 := by omega
  rw [hpn]
  cases hex : inp.isExistingLoan <;> simp [hex]

/-- C3 (amended): in bi-weekly mode the engine uses a per-period payment of
half the monthly level payment and a periodic rate of annualRate/100/26, and
(while both periods of a month stay live) emits exactly one ScheduleEntry per
two consecutive bi-weekly periods; the entry's payment field equals the
combined payment of the two periods, but its principal and interest fields
equal TWICE THE SECOND period's principal and interest, not the sum over both
periods (the cumulative totalInterest field does accumulate both periods'
interest). -/
theorem C3_biweekly (L mr mpi : ℚ) (n : ℕ) (esc pmi : ℚ) (inp : MortgageInputs)
    (r pay i1 p1 b1 i2 p2 b2 : ℚ)
    (hr : r = (if inp.isExistingLoan then inp.existingInterestRate
        else inp.interestRate) / 100 / BIWEEKLY_PERIODS_PER_YEAR)
    (hpay : pay = mpi / 2)
    (h1 : biWeeklyStep r pay L = (i1, p1, b1))
    (h2 : biWeeklyStep r pay b1 = (i2, p2, b2))
    (hn : 1 ≤ n)
    (hb : MINIMUM_BALANCE < L) (hp1 : 0 < pay - L * r)
    (hb1 : MINIMUM_BALANCE < b1) (hp2 : 0 < pay - b1 * r) :
    ∃ rest,
      generateBiWeeklySchedule L mr mpi n esc pmi inp
        = (⟨1, pay * 2, p2 * 2, i2 * 2, 0, b2, i1 + i2,
            if inp.isExistingLoan then 0
            else if (b2 / inp.homePrice) * 100 > PMI_LTV_THRESHOLD then pmi else 0,
            esc⟩ : ScheduleEntry) :: rest := by
  have hfuel : ∃ f, min (n * 2) MAX_ITERATIONS = f + 2 := by
    refine ⟨min (n * 2) MAX_ITERATIONS - 2, ?_⟩
    have h2n : 2 ≤ n * 2 := by omega
    have h2m : 2 ≤ MAX_ITERATIONS := by norm_num [MAX_ITERATIONS]
    omega
  obtain ⟨f, hf⟩ := hfuel
  refine ⟨biWeeklyLoop r pay esc pmi inp f 3 b2 (i1 + i2), ?_⟩
  have hgen : generateBiWeeklySchedule L mr mpi n esc pmi inp
      = biWeeklyLoop r pay esc pmi inp (min (n * 2) MAX_ITERATIONS) 1 L 0 := by
    rw [generateBiWeeklySchedule, hr, hpay]
  rw [hgen, hf, show (1:ℕ) = 2 * 0 + 1 from rfl]
  have h := biWeeklyLoop_pairs r pay esc pmi inp f 0 L 0 i1 p1 b1 i2 p2 b2
    h1 h2 hb hp1 hb1 hp2
  rw [h]
  norm_num

/-- Witness for C3: a 1000 existing-rate-26% loan with monthly payment 200
(bi-weekly payment 100, bi-weekly rate 1/100). -/
theorem C3_biweekly_witness :
    MINIMUM_BALANCE < (1000:ℚ) ∧
      ∃ rest,
        generateBiWeeklySchedule 1000 (26/100/12) 200 12 0 0
            { zeroInputs with isExistingLoan := true, existingInterestRate := 26 }
          = (⟨1, 100 * 2, 909/10 * 2, 91/10 * 2, 0, 8191/10, 10 + 91/10, 0, 0⟩ :
              ScheduleEntry) :: rest :=
  ⟨by norm_num [MINIMUM_BALANCE],
    C3_biweekly 1000 (26/100/12) 200 12 0 0
      { zeroInputs with isExistingLoan := true, existingInterestRate := 26 }
      (1/100) 100 10 90 910 (91/10) (909/10) (8191/10)
      (by norm_num [zeroInputs, BIWEEKLY_PERIODS_PER_YEAR])
      (by norm_num)
      (by norm_num [biWeeklyStep])
      (by norm_num [biWeeklyStep])
      (by norm_num)
      (by norm_num [MINIMUM_BALANCE])
      (by norm_num)
      (by norm_num [MINIMUM_BALANCE])
      (by norm_num)⟩

/-- C3 counterexample: on a 1000 loan at bi-weekly rate 1/100 with bi-weekly
payment 100, the first emitted entry's interest field is 18.2 (twice the
second period's 9.1), while the combined interest of the two bi-weekly
periods is 10 + 9.1 = 19.1, so the entry does not carry the summed interest
the claim states. -/
theorem C3_counterexample :
    ((generateBiWeeklySchedule 1000 (26/100/12) 200 12 0 0
        { zeroInputs with isExistingLoan := true, existingInterestRate := 26 }).head?.map
      ScheduleEntry.interest) = some (91/5) ∧
    (biWeeklyStep (1/100) 100 1000).1
        + (biWeeklyStep (1/100) 100 (biWeeklyStep (1/100) 100 1000).2.2).1 = 191/10 ∧
    (91/5 : ℚ) ≠ 191/10 := by
  refine ⟨?_, by norm_num [biWeeklyStep], by norm_num⟩
  have hgen : generateBiWeeklySchedule 1000 (26/100/12) 200 12 0 0
      { zeroInputs with isExistingLoan := true, existingInterestRate := 26 }
      = biWeeklyLoop (1/100) 100 0 0
          { zeroInputs with isExistingLoan := true, existingInterestRate := 26 }
          (min (12 * 2) MAX_ITERATIONS) 1 1000 0 := by
    rw [generateBiWeeklySchedule]
    norm_num [zeroInputs, BIWEEKLY_PERIODS_PER_YEAR]
  rw [hgen, show min (12 * 2) MAX_ITERATIONS = 22 + 2 by norm_num [MAX_ITERATIONS],
    show (1:ℕ) = 2 * 0 + 1 from rfl]
  rw [biWeeklyLoop_pairs (1/100) 100 0 0
    { zeroInputs with isExistingLoan := true, existingInterestRate := 26 }
    22 0 1000 0 10 90 910 (91/10) (909/10) (8191/10)
    (by norm_num [biWeeklyStep]) (by norm_num [biWeeklyStep])
    (by norm_num [MINIMUM_BALANCE]) (by norm_num)
    (by norm_num [MINIMUM_BALANCE]) (by norm_num)]
  norm_num

/-- PointsScenario from mortgage-calculations.ts lines 59-65. -/
structure PointsScenario where
  id : String
  name : String
  rate : ℚ
  points : ℚ
  isBaseline : Bool
deriving DecidableEq

/-- ComparisonResult from mortgage-calculations.ts lines 67-78; the JavaScript
`breakEvenMonths: number | null` becomes an `Option`. -/
structure ComparisonResult where
  scenario : PointsScenario
  monthlyPI : ℚ
  pointCost : ℚ
  totalInterest : ℚ
  totalCost : ℚ
  breakEvenMonths : Option ℚ
  monthlySavings : ℚ
  totalCostAt5Years : ℚ
  totalCostAt10Years : ℚ
  totalCostAtFullTerm : ℚ
deriving DecidableEq

/-- calculateBreakEven (lines 383-400): fills in monthlySavings and
breakEvenMonths on a scenario's result relative to the baseline result. -/
def calculateBreakEven (result baseline : ComparisonResult) : ComparisonResult :=
  let pointCostDiff := result.pointCost - baseline.pointCost
  let monthlySavings := baseline.monthlyPI - result.monthlyPI
  let breakEvenMonths : Option ℚ :=
    if 0 < monthlySavings ∧ 0 < pointCostDiff
    then some (pointCostDiff / monthlySavings) else none
  { result with monthlySavings := monthlySavings, breakEvenMonths := breakEvenMonths }

/-- C5 (amended): the break-even month count is
(pointCostDiff)/(monthlySavings) only when BOTH the monthly savings and the
point-cost difference relative to the baseline are positive; it is null (none)
in every other case — in particular it is null, not a non-positive quotient,
when the savings are positive but the scenario's point cost does not exceed
the baseline's. -/
theorem C5_break_even (result baseline : ComparisonResult) :
    (calculateBreakEven result baseline).breakEvenMonths
      = if 0 < baseline.monthlyPI - result.monthlyPI
          ∧ 0 < result.pointCost - baseline.pointCost
        then some ((result.pointCost - baseline.pointCost)
            / (baseline.monthlyPI - result.monthlyPI))
        else none := by
  rfl

/-- A dummy scenario used to build concrete comparison results. -/
def zeroScenario : PointsScenario := ⟨"", "", 0, 0, false⟩

/-- A comparison result with the given monthly payment and point cost and all
other numeric fields zero. -/
def mkResult (mpi cost : ℚ) : ComparisonResult :=
  ⟨zeroScenario, mpi, cost, 0, 0, none, 0, 0, 0, 0⟩

/-- C5 counterexample: with baseline payment 200 / point cost 1000 and
scenario payment 100 / point cost 0, the monthly savings are 100 > 0, yet the
code returns a null break-even (the point-cost difference is negative), not
the quotient the claim requires for every positive-savings scenario. -/
theorem C5_counterexample :
    0 < (mkResult 200 1000).monthlyPI - (mkResult 100 0).monthlyPI ∧
    (calculateBreakEven (mkResult 100 0) (mkResult 200 1000)).breakEvenMonths
      ≠ some (((mkResult 100 0).pointCost - (mkResult 200 1000).pointCost)
          / ((mkResult 200 1000).monthlyPI - (mkResult 100 0).monthlyPI)) := by
  constructor
  · norm_num [mkResult]
  · simp only [calculateBreakEven, mkResult, zeroScenario]
    simp

/-- If an if-then-else with else-branch 0 is nonzero, its condition holds. -/
theorem cond_of_ite_ne_zero {c : Prop} [Decidable c] {x : ℚ}
    (h : (if c then x else (0:ℚ)) ≠ 0) : c := by
  by_cases hc : c
  · exact hc
  · rw [if_neg hc] at h
    exact absurd rfl h

theorem amortLoop_pmi (mr mpi esc pmi : ℚ) (inp : MortgageInputs)
    (em : ℚ) (dm : Bool) (ea : ℚ) :
    ∀ fuel month bal ti e, e ∈ amortLoop mr mpi esc pmi inp em dm ea fuel month bal ti →
      (inp.isExistingLoan = true → e.pmi = 0) ∧
      (inp.isExistingLoan = false → e.pmi ≠ 0 →
        (e.balance / inp.homePrice) * 100 > PMI_LTV_THRESHOLD) := by
  intro fuel
  induction fuel with
  | zero => intro month bal ti e he; simp [amortLoop] at he
  | succ k ih =>
    intro month bal ti e he
    simp only [amortLoop] at he
    split at he
    · simp at he
    · split at he
      · simp at he
      · simp only [List.mem_cons] at he
        rcases he with he | he
        · subst he
          refine ⟨fun hex => by simp [hex], fun hex hne => ?_⟩
          simp only [hex, Bool.false_eq_true, if_false] at hne ⊢
          simpa using cond_of_ite_ne_zero hne
        · exact ih (month + 1) _ _ e he

/-- C8 (amended): in every emitted monthly-schedule entry, the pmi field is
nonzero only while the entry's loan-to-value ratio (balance/homePrice × 100)
exceeds the 78 threshold — but only for a NEW loan; for a pre-existing loan
(isExistingLoan = true) the schedule's pmi field is 0 in every period (the
flat pmiAmount enters calculateMonthlyPMI and the total monthly payment, but
is never written into schedule entries). -/
theorem C8_pmi_field (loanAmount mr mpi : ℚ) (n : ℕ) (esc pmi : ℚ)
    (inp : MortgageInputs) (em : ℚ) (dm : Bool) (ea : ℚ) (e : ScheduleEntry)
    (he : e ∈ generateAmortizationSchedule loanAmount mr mpi n esc pmi inp em dm ea false) :
    (inp.isExistingLoan = true → e.pmi = 0) ∧
    (inp.isExistingLoan = false → e.pmi ≠ 0 →
      (e.balance / inp.homePrice) * 100 > PMI_LTV_THRESHOLD) := by
  simp only [generateAmortizationSchedule, Bool.false_eq_true, if_false] at he
  exact amortLoop_pmi mr mpi esc pmi inp em dm ea _ 1 loanAmount 0 e he

/-- Witness for C8 at a new-loan schedule whose single entry carries pmi 7
with balance 900 on a 1100 home (LTV ≈ 81.8% > 78%). -/
theorem C8_pmi_field_witness :
    (⟨1, 100, 100, 0, 0, 900, 0, 7, 0⟩ : ScheduleEntry) ∈
        generateAmortizationSchedule 1000 0 100 1 0 7
          { zeroInputs with homePrice := 1100 } 0 false 0 false ∧
    ((({ zeroInputs with homePrice := 1100 } : MortgageInputs).isExistingLoan = true →
        (⟨1, 100, 100, 0, 0, 900, 0, 7, 0⟩ : ScheduleEntry).pmi = 0) ∧
      (({ zeroInputs with homePrice := 1100 } : MortgageInputs).isExistingLoan = false →
        (⟨1, 100, 100, 0, 0, 900, 0, 7, 0⟩ : ScheduleEntry).pmi ≠ 0 →
        ((⟨1, 100, 100, 0, 0, 900, 0, 7, 0⟩ : ScheduleEntry).balance
            / ({ zeroInputs with homePrice := 1100 } : MortgageInputs).homePrice) * 100
          > PMI_LTV_THRESHOLD)) := by
  have hsched : generateAmortizationSchedule 1000 0 100 1 0 7
      { zeroInputs with homePrice := 1100 } 0 false 0 false
      = [⟨1, 100, 100, 0, 0, 900, 0, 7, 0⟩] := by
    simp [generateAmortizationSchedule, amortLoop, MAX_ITERATIONS, MINIMUM_BALANCE,
      PMI_LTV_THRESHOLD, zeroInputs]
    norm_num
  have hmem : (⟨1, 100, 100, 0, 0, 900, 0, 7, 0⟩ : ScheduleEntry) ∈
      generateAmortizationSchedule 1000 0 100 1 0 7
        { zeroInputs with homePrice := 1100 } 0 false 0 false := by
    rw [hsched]
    exact List.mem_singleton.mpr rfl
  exact ⟨hmem, C8_pmi_field 1000 0 100 1 0 7 _ 0 false 0 _ hmem⟩

/-- Inputs for the C8 counterexample: an existing loan with a flat monthly
mortgage-insurance amount of 50. -/
def c8Inputs : MortgageInputs :=
  { zeroInputs with isExistingLoan := true, pmiAmount := 50 }

/-- C8 counterexample: for a pre-existing loan, calculateMonthlyPMI reports
the flat 50/month amount, yet the emitted schedule entry's pmi field is 0,
not the claimed flat recurring charge. -/
theorem C8_counterexample :
    calculateMonthlyPMI c8Inputs 1000 0 = 50 ∧
    (generateAmortizationSchedule 1000 0 100 1 0
        (calculateMonthlyPMI c8Inputs 1000 0) c8Inputs 0 false 0 false).head?.map
      ScheduleEntry.pmi = some 0 ∧
    (0:ℚ) ≠ 50 := by
  refine ⟨by simp [calculateMonthlyPMI, c8Inputs, zeroInputs], ?_, by norm_num⟩
  have hsched : generateAmortizationSchedule 1000 0 100 1 0
      (calculateMonthlyPMI c8Inputs 1000 0) c8Inputs 0 false 0 false
      = [⟨1, 100, 100, 0, 0, 900, 0, 0, 0⟩] := by
    simp [generateAmortizationSchedule, amortLoop, calculateMonthlyPMI,
      MAX_ITERATIONS, MINIMUM_BALANCE, PMI_LTV_THRESHOLD, c8Inputs, zeroInputs]
    norm_num
  rw [hsched]
  rfl

/-- FplLocation from ptc-calculations.ts line 5. -/
inductive FplLocation
  | CONTIGUOUS_48
  | ALASKA
  | HAWAII
deriving DecidableEq

/-- One tax year's FPL data for one location (ptc-calculations.ts lines
28-31): the family-size 1..8 table and the per-additional-person increment. -/
structure FplYearData where
  table : ℚ → Option ℚ
  perAdditional : ℚ

/-- The `{1: a1, ..., 8: a8}` table-object lookup. -/
def fplTable (a1 a2 a3 a4 a5 a6 a7 a8 : ℚ) : ℚ → Option ℚ := fun n =>
  if n = 1 then some a1
  else if n = 2 then some a2
  else if n = 3 then some a3
  else if n = 4 then some a4
  else if n = 5 then some a5
  else if n = 6 then some a6
  else if n = 7 then some a7
  else if n = 8 then some a8
  else none

/-- FPL_2023 (lines 34-47), used for tax year 2024. -/
def FPL_2023 : FplLocation → FplYearData
  | .CONTIGUOUS_48 => ⟨fplTable 14580 19720 24860 30000 35140 40280 45420 50560, 5140⟩
  | .ALASKA => ⟨fplTable 18210 24640 31070 37500 43930 50360 56790 63220, 6430⟩
  | .HAWAII => ⟨fplTable 16770 22680 28590 34500 40410 46320 52230 58140, 5910⟩

/-- FPL_2024 (lines 50-63), used for tax year 2025. -/
def FPL_2024 : FplLocation → FplYearData
  | .CONTIGUOUS_48 => ⟨fplTable 15060 20440 25820 31200 36580 41960 47340 52720, 5380⟩
  | .ALASKA => ⟨fplTable 18810 25550 32290 39030 45770 52510 59250 65990, 6740⟩
  | .HAWAII => ⟨fplTable 17310 23500 29690 35880 42070 48260 54450 60640, 6190⟩

/-- FPL_2025 (lines 67-80), used for tax year 2026. -/
def FPL_2025 : FplLocation → FplYearData
  | .CONTIGUOUS_48 => ⟨fplTable 15600 21150 26700 32250 37800 43350 48900 54450, 5550⟩
  | .ALASKA => ⟨fplTable 19500 26430 33360 40290 47220 54150 61080 68010, 6930⟩
  | .HAWAII => ⟨fplTable 17940 24320 30700 37080 43460 49840 56220 62600, 6380⟩

/-- FPL_DATA_BY_TAX_YEAR (lines 82-86) together with the
`[taxYear] || [2026]` fallback of getFPL: any unrecognized year falls back to
the 2026 table (FPL_2025), which the final else also covers. -/
def FPL_DATA_BY_TAX_YEAR (taxYear : ℤ) : FplLocation → FplYearData :=
  if taxYear = 2024 then FPL_2023
  else if taxYear = 2025 then FPL_2024
  else FPL_2025

/-- getFPL (lines 91-105).  The truthiness test `if (table[familySize])` is
presence in the table (all table values are nonzero); the source's
`if (!yearData) return 0` branch is unreachable after the fallback and is
omitted. -/
def getFPL (familySize : ℚ) (taxYear : ℤ) (location : FplLocation) : ℚ :=
  let yearData := FPL_DATA_BY_TAX_YEAR taxYear location
  if familySize ≤ 0 then 0
  else
    match yearData.table familySize with
    | some v => v
    | none =>
      let baseFor8 := (yearData.table 8).getD 0
      let additionalPeople := familySize - 8
      baseFor8 + additionalPeople * yearData.perAdditional

/-- One row of APPLICABLE_FIGURE_TABLE (lines 110-117); `fpl_max = none`
models the source's Infinity bound on the last row. -/
structure FigureTier where
  fpl_min : ℚ
  fpl_max : Option ℚ
  start_percent : ℚ
  end_percent : ℚ

/-- Comparison against a tier's upper bound; everything is below Infinity. -/
def belowTierMax (x : ℚ) : Option ℚ → Bool
  | none => true
  | some m => decide (x < m)

/-- APPLICABLE_FIGURE_TABLE (lines 110-117). -/
def APPLICABLE_FIGURE_TABLE : List FigureTier :=
  [⟨0, some 150, 0, 0⟩,
   ⟨150, some 200, 0, 2⟩,
   ⟨200, some 250, 2, 4⟩,
   ⟨250, some 300, 4, 6⟩,
   ⟨300, some 400, 6, 85/10⟩,
   ⟨400, none, 85/10, 85/10⟩]

/-- getApplicableFigure (lines 127-151).  `none` models the JavaScript
Infinity sentinel returned on the subsidy-cliff path; a `some` figure is the
fraction (already divided by 100).  In the interpolation branch the matched
tier always has a finite fpl_max (the Infinity row is shielded by the
earlier ≥400 returns), so `getD 0` never actually supplies its default. -/
def getApplicableFigure (fplPercentage : ℚ) (useCliffLogic : Bool) : Option ℚ :=
  if fplPercentage < 0 then some 0
  else if useCliffLogic = true ∧ 400 ≤ fplPercentage then none
  else if 400 ≤ fplPercentage then some (85/1000)
  else
    match APPLICABLE_FIGURE_TABLE.find? (fun t =>
        decide (t.fpl_min ≤ fplPercentage) && belowTierMax fplPercentage t.fpl_max) with
    | none => some (85/1000)
    | some tier =>
      if tier.fpl_min = 0 then some 0
      else
        let percentageInRange :=
          (fplPercentage - tier.fpl_min) / (tier.fpl_max.getD 0 - tier.fpl_min)
        some ((tier.start_percent
          + percentageInRange * (tier.end_percent - tier.start_percent)) / 100)

/-- JavaScript Math.round: round half toward positive infinity. -/
def jsRound (x : ℚ) : ℤ := ⌊x + 1/2⌋

/-- PTCInputs from ptc-calculations.ts lines 7-14. -/
structure PTCInputs where
  taxYear : ℤ
  familySize : ℚ
  magi : ℚ
  location : FplLocation
  slcspMonthlyPremium : ℚ
  subsidyCliff : Bool

/-- PTCResults from ptc-calculations.ts lines 16-26. -/
structure PTCResults where
  fpl : ℚ
  fplPercentage : ℚ
  applicableFigure : ℚ
  annualContribution : ℚ
  monthlyContribution : ℚ
  totalAllowedPTC : ℚ
  monthlyPTC : ℚ
  isEligible : Bool
  eligibilityMessage : String
deriving DecidableEq

/-- The defaultResult record of calculatePTC (lines 159-169). -/
def defaultPTCResult : PTCResults :=
  ⟨0, 0, 0, 0, 0, 0, 0, false, "Unable to calculate"⟩

/-- calculatePTC (lines 156-238).  The JavaScript Infinity sentinel for the
annual contribution on the cliff path is carried as `none` through the
intermediate Options; `max(0, premium - Infinity)` is 0, `Infinity/12` is
Infinity, and the final `isFinite(x) ? x : 0` projections are `getD 0`. -/
def calculatePTC (inputs : PTCInputs) : PTCResults :=
  if inputs.familySize ≤ 0 ∨ inputs.magi ≤ 0 ∨ inputs.slcspMonthlyPremium ≤ 0 then
    { defaultPTCResult with
        eligibilityMessage := "Please enter valid values for all fields" }
  else
    let fpl := getFPL inputs.familySize inputs.taxYear inputs.location
    if fpl ≤ 0 then
      { defaultPTCResult with
          eligibilityMessage := "Unable to determine Federal Poverty Level" }
    else
      let fplPercentage := (inputs.magi / fpl) * 100
      let useCliffLogic := inputs.taxYear = 2026 && inputs.subsidyCliff
      let applicableFigure := getApplicableFigure fplPercentage useCliffLogic
      let annualContribution : Option ℚ :=
        applicableFigure.map (fun f => (jsRound (inputs.magi * f) : ℚ))
      let monthlyContribution : Option ℚ := annualContribution.map (· / 12)
      let annualSlcspPremium := inputs.slcspMonthlyPremium * 12
      let totalAllowedPTC0 : ℚ :=
        match annualContribution with
        | some c => max 0 (annualSlcspPremium - c)
        | none => 0
      let totalAllowedPTC :=
        if useCliffLogic = true ∧ 400 ≤ fplPercentage then 0 else totalAllowedPTC0
      let monthlyPTC := totalAllowedPTC / 12
      let isEligible : Bool :=
        if fplPercentage < 100 then false
        else if useCliffLogic = true ∧ 400 ≤ fplPercentage then false
        else true
      let eligibilityMessage : String :=
        if fplPercentage < 100 then
          "Income below 100% FPL - you may qualify for Medicaid instead"
        else if useCliffLogic = true ∧ 400 ≤ fplPercentage then
          "Income exceeds 400% FPL - no subsidy available under cliff rules"
        else if 400 ≤ fplPercentage then
          "Income above 400% FPL - subsidy capped at 8.5% of income"
        else if totalAllowedPTC ≤ 0 then
          "Your expected contribution exceeds the benchmark premium"
        else "You may be eligible for the Premium Tax Credit"
      ⟨fpl, fplPercentage, applicableFigure.getD 0, annualContribution.getD 0,
        monthlyContribution.getD 0, totalAllowedPTC, monthlyPTC,
        isEligible, eligibilityMessage⟩

/-- C9 (amended): getFPL(familySize=2, taxYear=2025, CONTIGUOUS_48) returns
20440, the family-size-2 entry of the 2024 FPL table used for tax year 2025
(not 21150, which is the 2025-table value used for tax year 2026). -/
theorem C9_getFPL : getFPL 2 2025 FplLocation.CONTIGUOUS_48 = 20440 := by
  norm_num [getFPL, FPL_DATA_BY_TAX_YEAR, FPL_2024, fplTable]

/-- C9 counterexample: getFPL(2, 2025, CONTIGUOUS_48) is not 21150. -/
theorem C9_counterexample : getFPL 2 2025 FplLocation.CONTIGUOUS_48 ≠ 21150 := by
  norm_num [getFPL, FPL_DATA_BY_TAX_YEAR, FPL_2024, fplTable]

/-- An if-then-else with zero then-branch is non-negative when its else
branch is. -/
theorem ite_zero_nonneg {c : Prop} [Decidable c] {x : ℚ} (hx : 0 ≤ x) :
    0 ≤ if c then (0:ℚ) else x := by
  split
  · exact le_refl 0
  · exact hx

/-- C10: for every input, calculatePTC's totalAllowedPTC and monthlyPTC are
non-negative, and whenever the subsidy-cliff path yields the infinite
applicable figure, the emitted applicableFigure, annualContribution and
monthlyContribution are all mapped to 0; all numeric fields of the output
record are rationals, so every output is finite. -/
theorem C10_ptc_outputs (inputs : PTCInputs) :
    0 ≤ (calculatePTC inputs).totalAllowedPTC ∧
    0 ≤ (calculatePTC inputs).monthlyPTC ∧
    (getApplicableFigure
        ((inputs.magi / getFPL inputs.familySize inputs.taxYear inputs.location) * 100)
        (inputs.taxYear = 2026 && inputs.subsidyCliff) = none →
      (calculatePTC inputs).applicableFigure = 0 ∧
      (calculatePTC inputs).annualContribution = 0 ∧
      (calculatePTC inputs).monthlyContribution = 0) := by
  by_cases hval : inputs.familySize ≤ 0 ∨ inputs.magi ≤ 0 ∨ inputs.slcspMonthlyPremium ≤ 0
  · simp [calculatePTC, hval, defaultPTCResult]
  · by_cases hfpl : getFPL inputs.familySize inputs.taxYear inputs.location ≤ 0
    · simp [calculatePTC, hval, hfpl, defaultPTCResult]
    · rcases hfig : getApplicableFigure
          ((inputs.magi / getFPL inputs.familySize inputs.taxYear inputs.location) * 100)
          (inputs.taxYear = 2026 && inputs.subsidyCliff) with _ | f
      · simp [calculatePTC, hval, hfpl, hfig]
      · refine ⟨?_, ?_, fun hc => by simp [hfig] at hc⟩
        · simp only [calculatePTC, hval, hfpl, hfig]
          simp [hval, hfpl]
          exact ite_zero_nonneg (le_max_left 0 _)
        · simp only [calculatePTC, hval, hfpl, hfig]
          simp [hval, hfpl]
          exact div_nonneg (ite_zero_nonneg (le_max_left 0 _)) (by norm_num)

/-!
Social-security calculation module (the calculation file of src/unnamed/part_004).
Dates are modelled at day granularity as a month index (year*12 + zero-based
month) plus a day-of-month; the date-fns helpers startOfMonth, addMonths and
differenceInMonths are modelled on this representation (addMonths without
end-of-month day clamping, differenceInMonths as the signed number of full
calendar months between the dates).  Benefit amounts are reals because the
inflation factor uses a fractional exponent.
-/

/-- A calendar date: month index (year*12 + month) and day of month. -/
structure SSDate where
  ym : ℤ
  day : ℤ
deriving DecidableEq

/-- date-fns startOfMonth. -/
def startOfMonth (d : SSDate) : SSDate := ⟨d.ym, 1⟩

/-- date-fns addMonths (day kept as is). -/
def addMonths (d : SSDate) (n : ℤ) : SSDate := ⟨d.ym + n, d.day⟩

/-- date-fns getYear. -/
def getYear (d : SSDate) : ℤ := d.ym.fdiv 12

/-- Strict date comparison (JavaScript `<` on Date timestamps). -/
def dateLt (a b : SSDate) : Prop := a.ym < b.ym ∨ (a.ym = b.ym ∧ a.day < b.day)

/-- Date comparison (JavaScript `<=`/`>=` on Date timestamps). -/
def dateLE (a b : SSDate) : Prop := a.ym < b.ym ∨ (a.ym = b.ym ∧ a.day ≤ b.day)

instance (a b : SSDate) : Decidable (dateLt a b) := by
  unfold dateLt; infer_instance

instance (a b : SSDate) : Decidable (dateLE a b) := by
  unfold dateLE; infer_instance

/-- date-fns differenceInMonths: signed count of full months between dates. -/
def differenceInMonths (a b : SSDate) : ℤ :=
  if dateLE b a then a.ym - b.ym - (if a.day < b.day then 1 else 0)
  else -(b.ym - a.ym - (if b.day < a.day then 1 else 0))

/-- Constant MAX_AGE of the social-security module. -/
def MAX_AGE : ℤ := 90

/-- getFRA: full retirement age (years, extra months) from birth year. -/
def getFRA (birthDate : SSDate) : ℤ × ℤ :=
  let year := getYear birthDate
  if year ≤ 1937 then (65, 0)
  else if year ≤ 1942 then (65, 2 * (year - 1937))
  else if year ≤ 1954 then (66, 0)
  else if year = 1955 then (66, 2)
  else if year = 1956 then (66, 4)
  else if year = 1957 then (66, 6)
  else if year = 1958 then (66, 8)
  else if year = 1959 then (66, 10)
  else (67, 0)

/-- getFRADate: birth date advanced by the full-retirement age. -/
def getFRADate (birthDate : SSDate) : SSDate :=
  addMonths birthDate ((getFRA birthDate).1 * 12 + (getFRA birthDate).2)

/-- The `type` parameter of calculateBenefit. -/
inductive BenefitType
  | primary
  | spouse
deriving DecidableEq

/-- calculateBenefit: PIA adjusted by delayed-retirement credits (8%/year,
capped at age 70) or early-claiming reductions (5/9 %/month for 36 months,
5/12 % beyond, for the primary; 25/36 % and 5/12 % against the 50% spousal
maximum). -/
noncomputable def calculateBenefit (pia : ℝ) (birthDate claimDate : SSDate)
    (type : BenefitType) : ℝ :=
  let fraDate := getFRADate birthDate
  let monthsDiff0 := differenceInMonths (startOfMonth claimDate) (startOfMonth fraDate)
  let age70Date := addMonths birthDate (70 * 12)
  let monthsUntil70 := differenceInMonths (startOfMonth age70Date) (startOfMonth fraDate)
  let monthsDiff := if monthsUntil70 < monthsDiff0 then monthsUntil70 else monthsDiff0
  match type with
  | .primary =>
    if 0 ≤ monthsDiff then pia * (1 + ((monthsDiff : ℝ) * (8/12) / 100))
    else
      let monthsEarly := |monthsDiff|
      let reduction : ℝ :=
        if monthsEarly ≤ 36 then (monthsEarly : ℝ) * (5/9) / 100
        else (36 * (5/9) / 100) + ((monthsEarly : ℝ) - 36) * (5/12) / 100
      pia * (1 - reduction)
  | .spouse =>
    let maxSpousal := pia * (1/2)
    if 0 ≤ monthsDiff then maxSpousal
    else
      let monthsEarly := |monthsDiff|
      let reduction : ℝ :=
        if monthsEarly ≤ 36 then (monthsEarly : ℝ) * (25/36) / 100
        else (36 * (25/36) / 100) + ((monthsEarly : ℝ) - 36) * (5/12) / 100
      maxSpousal * (1 - reduction)

/-- PersonInput of the social-security module. -/
structure PersonInput where
  birthDate : SSDate
  pia : ℝ
  claimDate : SSDate

/-- The maritalStatus union of the social-security module. -/
inductive MaritalStatus
  | Single
  | Married
deriving DecidableEq

/-- Inputs of the social-security module. -/
structure SSInputs where
  maritalStatus : MaritalStatus
  primary : PersonInput
  spouse : PersonInput
  spousalClaimDate : Option SSDate
  inflationRate : ℝ

/-- One element of the monthlyData array produced by the simulation. -/
structure MonthlyPoint where
  date : SSDate
  amount : ℝ
  year : ℤ

/-- AnnualProjection of the social-security module. -/
structure AnnualProjection where
  year : ℤ
  primaryAge : ℤ
  spouseAge : ℤ
  primaryBenefit : ℝ
  spouseBenefit : ℝ
  spousalAddOn : ℝ
  total : ℝ

/-- The record returned by calculateLifetimeBenefit. -/
structure LifetimeResult where
  total : ℝ
  monthlyData : List MonthlyPoint
  annualData : List AnnualProjection

/-- Math.floor(differenceInMonths(new Date(y, 11, 31), birth) / 12): the age
reached by December 31 of a year. -/
def ageAtYearEnd (year : ℤ) (birth : SSDate) : ℤ :=
  (differenceInMonths ⟨year * 12 + 11, 31⟩ birth).fdiv 12

open Classical in
/-- The monthly `while` loop of calculateLifetimeBenefit.  `fuel` is the
number of months from `current` through the simulation end inclusive; the
monthly and annual arrays are accumulated in reverse and reversed on exit;
the fuel-0 case performs the source's final-year push after the loop. -/
noncomputable def ssLoop (inputs : SSInputs) (startSim : SSDate)
    (primaryBase spouseOwnBase spousalTopUpReduced : ℝ) :
    ℕ → SSDate → ℝ → List MonthlyPoint → List AnnualProjection →
      ℤ → ℝ → ℝ → ℝ → LifetimeResult
  | 0, _, total, monthlyAcc, annualAcc, lastYear, yP, ySO, ySS =>
    if lastYear ≠ -1 then
      ⟨total, monthlyAcc.reverse,
        ((⟨lastYear, ageAtYearEnd lastYear inputs.primary.birthDate,
          ageAtYearEnd lastYear inputs.spouse.birthDate,
          yP, ySO, ySS, yP + ySO + ySS⟩ : AnnualProjection) :: annualAcc).reverse⟩
    else ⟨total, monthlyAcc.reverse, annualAcc.reverse⟩
  | fuel + 1, current, total, monthlyAcc, annualAcc, lastYear, yP, ySO, ySS =>
    let currentYear := getYear current
    let isPrimaryAlive :=
      ((differenceInMonths current inputs.primary.birthDate : ℚ) / 12) < (MAX_AGE : ℚ)
    let isSpouseAlive :=
      ((differenceInMonths current inputs.spouse.birthDate : ℚ) / 12) < (MAX_AGE : ℚ)
    let yearsElapsed : ℚ := (differenceInMonths current startSim : ℚ) / 12
    let inflationFactor : ℝ := (1 + inputs.inflationRate / 100) ^ (yearsElapsed : ℝ)
    let monthlyPrimary : ℝ :=
      if isPrimaryAlive ∧ dateLE (startOfMonth inputs.primary.claimDate) current
      then primaryBase * inflationFactor else 0
    let monthlySpouseOwn : ℝ :=
      if isSpouseAlive ∧ inputs.maritalStatus = MaritalStatus.Married
          ∧ dateLE (startOfMonth inputs.spouse.claimDate) current
      then spouseOwnBase * inflationFactor else 0
    let primaryClaimed := dateLE (startOfMonth inputs.primary.claimDate) current
    let spouseClaimedSpousal :=
      dateLE (startOfMonth (inputs.spousalClaimDate.getD inputs.spouse.claimDate)) current
    let monthlySpouseSpousal : ℝ :=
      if isSpouseAlive ∧ inputs.maritalStatus = MaritalStatus.Married
          ∧ primaryClaimed ∧ spouseClaimedSpousal ∧ 0 < spousalTopUpReduced
      then spousalTopUpReduced * inflationFactor else 0
    let monthlyTotal := monthlyPrimary + monthlySpouseOwn + monthlySpouseSpousal
    let pushAnnual := currentYear ≠ lastYear ∧ lastYear ≠ -1
    let annualAcc' :=
      if pushAnnual then
        (⟨lastYear, ageAtYearEnd lastYear inputs.primary.birthDate,
          ageAtYearEnd lastYear inputs.spouse.birthDate,
          yP, ySO, ySS, yP + ySO + ySS⟩ : AnnualProjection) :: annualAcc
      else annualAcc
    let yP' := (if pushAnnual then 0 else yP) + monthlyPrimary
    let ySO' := (if pushAnnual then 0 else ySO) + monthlySpouseOwn
    let ySS' := (if pushAnnual then 0 else ySS) + monthlySpouseSpousal
    ssLoop inputs startSim primaryBase spouseOwnBase spousalTopUpReduced
      fuel (addMonths current 1) (total + monthlyTotal)
      (⟨current, monthlyTotal, currentYear⟩ :: monthlyAcc) annualAcc'
      currentYear yP' ySO' ySS'

open Classical in
/-- calculateLifetimeBenefit: simulates monthly from the earliest claim date
through the month of the PRIMARY claimant's age-90 anniversary. -/
noncomputable def calculateLifetimeBenefit (inputs : SSInputs) : LifetimeResult :=
  let earliestClaimDate :=
    if dateLt inputs.spouse.claimDate inputs.primary.claimDate
    then inputs.spouse.claimDate else inputs.primary.claimDate
  let startSim := startOfMonth earliestClaimDate
  let endSim := addMonths inputs.primary.birthDate (MAX_AGE * 12)
  let endD := startOfMonth endSim
  let primaryBase := calculateBenefit inputs.primary.pia inputs.primary.birthDate
    inputs.primary.claimDate BenefitType.primary
  let spouseOwnBase := calculateBenefit inputs.spouse.pia inputs.spouse.birthDate
    inputs.spouse.claimDate BenefitType.primary
  let maxSpousalBenefit := inputs.primary.pia * (1/2)
  let spousalTopUpBase := max (maxSpousalBenefit - inputs.spouse.pia) 0
  let spouseFraDate := getFRADate inputs.spouse.birthDate
  let spousalClaimDate := inputs.spousalClaimDate.getD inputs.spouse.claimDate
  let monthsBeforeFRA :=
    differenceInMonths (startOfMonth spousalClaimDate) (startOfMonth spouseFraDate)
  let spousalTopUpReductionFactor : ℝ :=
    if monthsBeforeFRA < 0 then
      let monthsEarly := |monthsBeforeFRA|
      let reduction : ℝ :=
        if monthsEarly ≤ 36 then (monthsEarly : ℝ) * (25/36) / 100
        else (36 * (25/36) / 100) + ((monthsEarly : ℝ) - 36) * (5/12) / 100
      1 - reduction
    else 1
  let spousalTopUpReduced := spousalTopUpBase * spousalTopUpReductionFactor
  ssLoop inputs startSim primaryBase spouseOwnBase spousalTopUpReduced
    (endD.ym + 1 - startSim.ym).toNat startSim 0 [] [] (-1) 0 0 0

/-- The contiguous list of `n` month indexes starting at `start`. -/
def monthRange (start : ℤ) : ℕ → List ℤ
  | 0 => []
  | n + 1 => start :: monthRange (start + 1) n

theorem mem_monthRange (x : ℤ) :
    ∀ (n : ℕ) (start : ℤ), x ∈ monthRange start n ↔ start ≤ x ∧ x < start + n := by
  intro n
  induction n with
  | zero => intro start; simp [monthRange]
  | succ k ih =>
    intro start
    simp only [monthRange, List.mem_cons, ih]
    constructor
    · rintro (rfl | ⟨h1, h2⟩)
      · omega
      · omega
    · intro ⟨h1, h2⟩
      by_cases hx : x = start
      · exact Or.inl hx
      · right
        omega

/-- The simulation loop emits exactly one monthly point per month: its trace
of month indexes is the contiguous range from the current month, one point
per unit of fuel, appended to the (reversed) accumulator. -/
theorem ssLoop_monthly_dates (inputs : SSInputs) (startSim : SSDate)
    (pB sOB sTUR : ℝ) :
    ∀ fuel current total mAcc aAcc lastYear yP ySO ySS,
      ((ssLoop inputs startSim pB sOB sTUR fuel current total mAcc aAcc
          lastYear yP ySO ySS).monthlyData).map (fun p => p.date.ym)
        = (mAcc.map (fun p => p.date.ym)).reverse ++ monthRange current.ym fuel := by
  intro fuel
  induction fuel with
  | zero =>
    intro current total mAcc aAcc lastYear yP ySO ySS
    simp only [ssLoop]
    split <;> simp [monthRange]
  | succ n ih =>
    intro current total mAcc aAcc lastYear yP ySO ySS
    simp only [ssLoop]
    rw [ih]
    simp [monthRange, addMonths]

/-- C7 (amended): the lifetime-benefit simulation steps monthly starting at
the month of the earliest of the two claim dates, but its last simulated
month is the PRIMARY claimant's age-90 anniversary month, regardless of
which claimant is older: the monthly trace is exactly the contiguous month
range from the earliest claim month through primary-birth + 90 years.  (The
spouse's own age-90 cutoff only zeroes the spouse's amounts inside the
loop; it does not end the simulation.) -/
theorem C7_simulation_window (inputs : SSInputs) :
    ((calculateLifetimeBenefit inputs).monthlyData).map (fun p => p.date.ym)
      = monthRange
          (startOfMonth (if dateLt inputs.spouse.claimDate inputs.primary.claimDate
              then inputs.spouse.claimDate else inputs.primary.claimDate)).ym
          ((startOfMonth (addMonths inputs.primary.birthDate (MAX_AGE * 12))).ym + 1
            - (startOfMonth (if dateLt inputs.spouse.claimDate inputs.primary.claimDate
                then inputs.spouse.claimDate else inputs.primary.claimDate)).ym).toNat := by
  simp only [calculateLifetimeBenefit]
  rw [ssLoop_monthly_dates]
  simp

/-- Concrete inputs for the C7 counterexample: the spouse is ten years older
than the primary claimant (spouse born at month 0, primary at month 120);
the spouse claims at month 744 (age 62), the primary at month 864 (age 62). -/
noncomputable def c7Inputs : SSInputs :=
  ⟨MaritalStatus.Married, ⟨⟨120, 1⟩, 1000, ⟨864, 1⟩⟩, ⟨⟨0, 1⟩, 800, ⟨744, 1⟩⟩,
    none, 0⟩

/-- C7 counterexample: with an older spouse, the simulation still emits month
1100, which lies strictly after the earlier (older) claimant's age-90
anniversary month (min of the two age-90 months is the spouse's 1080), so
the loop does not end at the earlier claimant's age-90 anniversary. -/
theorem C7_counterexample :
    (1100 : ℤ) ∈ ((calculateLifetimeBenefit c7Inputs).monthlyData).map
        (fun p => p.date.ym) ∧
    ¬ ((1100 : ℤ) ≤ min ((addMonths c7Inputs.primary.birthDate (MAX_AGE * 12)).ym)
        ((addMonths c7Inputs.spouse.birthDate (MAX_AGE * 12)).ym)) := by
  constructor
  · simp only [calculateLifetimeBenefit]
    rw [ssLoop_monthly_dates]
    simp only [List.map_nil, List.reverse_nil, List.nil_append]
    rw [mem_monthRange]
    norm_num [c7Inputs, dateLt, startOfMonth, addMonths, MAX_AGE]
  · norm_num [c7Inputs, addMonths, MAX_AGE]

open Classical in
/-- calculateRemainingMonths (mortgage-calculations.ts lines 421-434): the
remaining term of the current loan, derived from its stated balance, annual
rate and monthly payment alone by solving the annuity equation for n in
closed form with logarithms; the function takes no term argument at all.
Transcendental (Math.log), so modelled over ℝ. -/
noncomputable def calculateRemainingMonths (balance annualRate monthlyPayment : ℝ) : ℤ :=
  if annualRate = 0 then ⌈balance / monthlyPayment⌉
  else
    let monthlyRate := annualRate / 100 / 12
    if monthlyPayment ≤ balance * monthlyRate then (MAX_ITERATIONS : ℤ)
    else ⌈Real.log (monthlyPayment / (monthlyPayment - balance * monthlyRate))
          / Real.log (1 + monthlyRate)⌉

open Classical in
/-- C6: the remaining term of the current loan is a function of its stated
balance, annual rate and monthly payment only — never of a stated original
term — equal to ceil(balance/payment) at zero rate and, when the rate is
nonzero and the payment exceeds the monthly interest, to
ceil(log(payment/(payment − balance·monthlyRate)) / log(1 + monthlyRate))
with monthlyRate = annualRate/100/12 (the payment-not-covering-interest
guard returns the 10000 iteration cap instead). -/
theorem C6_remaining_months (balance annualRate monthlyPayment : ℝ) :
    calculateRemainingMonths balance annualRate monthlyPayment
      = if annualRate = 0 then ⌈balance / monthlyPayment⌉
        else if monthlyPayment ≤ balance * (annualRate / 100 / 12) then 10000
        else ⌈Real.log (monthlyPayment
              / (monthlyPayment - balance * (annualRate / 100 / 12)))
            / Real.log (1 + annualRate / 100 / 12)⌉ := by
  rfl

end FinTools
